import Mathlib

/-!
  # Verification of the gobank account service

  A shallow embedding of the HTTP layer of the repository (api.go) and storage
  adapter (storage.go). The database is modelled as an explicit state: a
  list of account rows together with the next SERIAL id and the server
  clock backing the create_at DEFAULT CURRENT_TIMESTAMP column. Handlers
  are functions from a request, a response-writer trace and a database
  state to the written responses, an optional Go error and the new state;
  the router dispatch of Run (gorilla mux) is the function serve.

  Driver-level failures (a lost connection, a failed Exec) are outside the
  model: every SQL statement the code issues executes. Row-scan failures,
  which GetAccounts does handle, are modelled separately over raw rows.
-/

namespace Gobank

/-- The Account record of the repository (its types file is not under
src/; the fields follow the accounts table of storage.go Init: id,
first_name, last_name, number, balance, create_at, with the timestamp
as an integer instant). -/
structure Account where
  id : Int
  firstName : String
  lastName : String
  number : Int
  balance : Int
  createdAt : Int
deriving DecidableEq, Repr

/-- The create-account request body, fields firstName and lastName. -/
structure CreateAccountRequest where
  firstName : String
  lastName : String
deriving DecidableEq, Repr

/-- The transfer payload: from-account id, to-account id, amount.
Ephemeral, never persisted. -/
structure TransferRequest where
  fromAccount : Int
  toAccount : Int
  amount : Int
deriving DecidableEq, Repr

/-- Modelled from the spec: NewAccount, whose source file is not under
src/. Per the spec it constructs a zero-balance account with an
arbitrarily assigned number; identity is generated by storage, so the id
field keeps the Go zero value, and the construction-time clock fills the
in-memory timestamp. The arbitrary number and the clock reading enter as
parameters. -/
def NewAccount (firstName lastName : String) (number : Int) (now : Int) : Account :=
  { id := 0, firstName := firstName, lastName := lastName,
    number := number, balance := 0, createdAt := now }

/-- A JSON value, the image under the Go encoding/json package of the data this service
writes. -/
inductive Json where
  | null
  | bool (b : Bool)
  | num (n : Int)
  | str (s : String)
  | arr (elems : List Json)
  | obj (fields : List (String × Json))
deriving Repr

/-- A response body: either plain text (http.Error, the 404 page of the router)
or an encoded JSON value (WriteJSON). -/
inductive Body where
  | plain (text : String)
  | json (value : Json)
deriving Repr

/-- One write to the ResponseWriter: the status sent with WriteHeader and
the body that follows. -/
structure Write where
  status : Nat
  body : Body
deriving Repr

/-- The ResponseWriter trace: the writes, in order. Go sends only the
first status on the wire but every body is appended, so the trace keeps
them all. -/
abbrev Writer := List Write

/-- A status-plus-JSON write, the shape WriteJSON produces. -/
def jsonWrite (status : Nat) (value : Json) : Write :=
  { status := status, body := Body.json value }

/-- The database state: the rows of the accounts table, the next value of
the id SERIAL, and the clock backing create_at DEFAULT CURRENT_TIMESTAMP. -/
structure DB where
  rows : List Account
  nextId : Int
  now : Int
deriving DecidableEq, Repr

/-! ## Storage adapter (storage.go) -/

/-- CreateAccount: INSERT of first_name, last_name, number, balance; the
id and create_at columns are database-assigned. -/
def createAccount (acc : Account) (db : DB) : DB :=
  { db with
    rows := db.rows ++ [{ acc with id := db.nextId, createdAt := db.now }],
    nextId := db.nextId + 1 }

/-- DeleteAccount: DELETE FROM accounts WHERE id = $1. The affected-row
count is never read, so the operation succeeds whether or not a row
matched. -/
def deleteAccount (id : Int) (db : DB) : DB :=
  { db with rows := db.rows.filter (fun a => a.id != id) }

/-- UpdateAccount: declared but unimplemented; returns nil and mutates
nothing. -/
def updateAccount (_ : Account) (db : DB) : Except String DB :=
  Except.ok db

/-- GetAccountById: SELECT * WHERE id = $1; the first matching row, or the
error account N not found. -/
def getAccountById (id : Int) (db : DB) : Except String Account :=
  match db.rows.find? (fun a => a.id == id) with
  | some a => Except.ok a
  | none => Except.error ("account " ++ toString id ++ " not found")

/-- GetAccounts over well-typed stored rows: the full table scan
succeeds. Scan failures over raw rows are modelled below for the
row-decoding loop itself. -/
def getAccounts (db : DB) : Except String (List Account) :=
  Except.ok db.rows

/-! ## Row scanning (scanIntoAccount, GetAccounts loop) -/

/-- A raw column value as the SQL driver delivers it. -/
inductive DbVal where
  | int (n : Int)
  | text (s : String)
  | time (t : Int)
deriving DecidableEq, Repr

/-- A raw row: the column values in table order. -/
abbrev Row := List DbVal

/-- scanIntoAccount: Scan the six columns into an Account; any column of
the wrong shape fails the scan. -/
def scanIntoAccount : Row → Except String Account
  | [DbVal.int i, DbVal.text f, DbVal.text l, DbVal.int n, DbVal.int b, DbVal.time t] =>
      Except.ok { id := i, firstName := f, lastName := l,
                  number := n, balance := b, createdAt := t }
  | _ => Except.error "sql: Scan error on row"

/-- The GetAccounts loop body: accounts starts as the non-nil empty slice,
each row is scanned in turn, and the first scan error returns the nil
slice together with that error. The pair is the Go (slice, error) return,
with the slice an Option to keep the Go nil-versus-empty distinction. -/
def getAccountsLoop (acc : List Account) :
    List Row → Option (List Account) × Option String
  | [] => (some acc, none)
  | r :: rs =>
    match scanIntoAccount r with
    | Except.error e => (none, some e)
    | Except.ok a => getAccountsLoop (acc ++ [a]) rs

/-- GetAccounts over raw rows: run the loop from the freshly allocated
empty slice. -/
def getAccountsRows (rows : List Row) : Option (List Account) × Option String :=
  getAccountsLoop [] rows

/-! ## JSON encoding (encoding/json on the written data) -/

/-- The JSON image of an Account. -/
def encodeAccount (a : Account) : Json :=
  Json.obj [("id", Json.num a.id),
            ("firstName", Json.str a.firstName),
            ("lastName", Json.str a.lastName),
            ("number", Json.num a.number),
            ("balance", Json.num a.balance),
            ("createdAt", Json.num a.createdAt)]

/-- The JSON image of a TransferRequest, as handleTransfer echoes it. -/
def encodeTransferRequest (t : TransferRequest) : Json :=
  Json.obj [("fromAccount", Json.num t.fromAccount),
            ("toAccount", Json.num t.toAccount),
            ("amount", Json.num t.amount)]

/-- The JSON image of a Go account slice: the nil slice encodes as null,
any non-nil slice as an array. -/
def encodeAccountSlice : Option (List Account) → Json
  | none => Json.null
  | some l => Json.arr (l.map encodeAccount)

/-! ## JSON decoding of request bodies -/

/-- A request body as the JSON decoder sees it: syntactically malformed
input (the decoder fails with its own message), or a parsed JSON value. -/
inductive BodyIn where
  | malformed (msg : String)
  | json (value : Json)
deriving Repr

/-- Field lookup in a decoded object. -/
def lookupField (k : String) : List (String × Json) → Option Json
  | [] => none
  | (k2, v) :: rest => if k2 == k then some v else lookupField k rest

/-- Decode a string-typed struct field: absent fields keep the zero value,
a present field of another shape fails the decode. -/
def getStrField (fields : List (String × Json)) (k : String) : Except String String :=
  match lookupField k fields with
  | none => Except.ok ""
  | some (Json.str s) => Except.ok s
  | some _ => Except.error ("json: cannot unmarshal into string field " ++ k)

/-- Decode an integer-typed struct field: absent fields keep the zero
value, a present field of another shape fails the decode. -/
def getNumField (fields : List (String × Json)) (k : String) : Except String Int :=
  match lookupField k fields with
  | none => Except.ok 0
  | some (Json.num n) => Except.ok n
  | some _ => Except.error ("json: cannot unmarshal into int field " ++ k)

/-- Decode the create-account body into a CreateAccountRequest. JSON null
leaves the struct at its zero value, as encoding/json does. -/
def decodeCreateAccountRequest : BodyIn → Except String CreateAccountRequest
  | BodyIn.malformed e => Except.error e
  | BodyIn.json Json.null => Except.ok { firstName := "", lastName := "" }
  | BodyIn.json (Json.obj fields) =>
    match getStrField fields "firstName", getStrField fields "lastName" with
    | Except.ok f, Except.ok l => Except.ok { firstName := f, lastName := l }
    | Except.error e, _ => Except.error e
    | _, Except.error e => Except.error e
  | BodyIn.json _ => Except.error "json: cannot unmarshal into CreateAccountRequest"

/-- Decode the transfer body into a TransferRequest. -/
def decodeTransferRequest : BodyIn → Except String TransferRequest
  | BodyIn.malformed e => Except.error e
  | BodyIn.json Json.null => Except.ok { fromAccount := 0, toAccount := 0, amount := 0 }
  | BodyIn.json (Json.obj fields) =>
    match getNumField fields "fromAccount",
          getNumField fields "toAccount",
          getNumField fields "amount" with
    | Except.ok f, Except.ok t, Except.ok a =>
        Except.ok { fromAccount := f, toAccount := t, amount := a }
    | Except.error e, _, _ => Except.error e
    | _, Except.error e, _ => Except.error e
    | _, _, Except.error e => Except.error e
  | BodyIn.json _ => Except.error "json: cannot unmarshal into TransferRequest"

/-! ## Path-parameter conversion (strconv.Atoi, getId) -/

/-- The numeric value of a digit list, failing on any non-digit. -/
def digitsToNat : List Char → Option Nat :=
  fun cs => cs.foldl
    (fun acc c =>
      match acc with
      | none => none
      | some n => if c.isDigit then some (n * 10 + (c.toNat - 48)) else none)
    (some 0)

/-- strconv.Atoi on a 64-bit platform: an optional sign, at least one
digit, and the value must fit a signed 64-bit int; anything else is an
error (nil result modelled as none). -/
def atoi (s : String) : Option Int :=
  let cs := s.toList
  let signed : Bool × List Char :=
    match cs with
    | '-' :: rest => (true, rest)
    | '+' :: rest => (false, rest)
    | _ => (false, cs)
  match signed with
  | (neg, ds) =>
    if ds.isEmpty then none
    else
      match digitsToNat ds with
      | none => none
      | some n =>
        let v : Int := if neg then -(n : Int) else (n : Int)
        if v < -(2 ^ 63) ∨ v > 2 ^ 63 - 1 then none else some v

/-- Whether a path segment matches the route pattern of one or more
digits. -/
def isDigitString (s : String) : Bool :=
  !s.toList.isEmpty && s.toList.all Char.isDigit

/-- The plain-text 400 write of http.Error inside getId: the message with
the trailing newline http.Error appends, outside the JSON envelope. -/
def invalidIdWrite (s : String) : Write :=
  { status := 400, body := Body.plain ("Invalid ID: " ++ s ++ "\n") }

/-- getId: read the id path variable (absent on the collection route,
giving the empty string), convert with Atoi; on failure write the
plain-text 400 via http.Error and return -1. -/
def getId (idVar : Option String) (w : Writer) : Int × Writer :=
  let s := idVar.getD ""
  match atoi s with
  | some n => (n, w)
  | none => (-1, w ++ [invalidIdWrite s])

/-! ## Handlers (api.go) -/

/-- What a handler produces: the writer trace, the error it returns to the
wrapper, and the database state it leaves. -/
abbrev HandlerOut := Writer × Option String × DB

/-- The oracle inputs of handleCreateAccount that Go draws from the
environment: the arbitrarily assigned account number and the in-process
clock NewAccount reads. -/
structure Env where
  gen : Int
  tnow : Int
deriving DecidableEq, Repr

/-- handleGetAccounts: fetch every account and write them with 200. -/
def handleGetAccounts (w : Writer) (db : DB) : HandlerOut :=
  match getAccounts db with
  | Except.error e => (w, some e, db)
  | Except.ok accs =>
      (w ++ [jsonWrite 200 (encodeAccountSlice (some accs))], none, db)

/-- handleCreateAccount: decode the body, build the in-memory account with
NewAccount, insert it, and write that in-memory account with 201. The
response is the value NewAccount built, not the stored row. -/
def handleCreateAccount (env : Env) (bd : BodyIn) (w : Writer) (db : DB) : HandlerOut :=
  match decodeCreateAccountRequest bd with
  | Except.error e => (w, some e, db)
  | Except.ok req =>
    let acc := NewAccount req.firstName req.lastName env.gen env.tnow
    (w ++ [jsonWrite 201 (encodeAccount acc)], none, createAccount acc db)

/-- The straight-line tail of handleGetAccountById once the id is in hand:
look the id up and either write the account with 200 or return the
error. -/
def handleGetAccountByIdCore (id : Int) (w : Writer) (db : DB) : HandlerOut :=
  match getAccountById id db with
  | Except.error e => (w, some e, db)
  | Except.ok acc => (w ++ [jsonWrite 200 (encodeAccount acc)], none, db)

/-- handleGetAccountById: extract the id with getId, then look it up.
getId failure does not abort the handler; the lookup runs with -1. -/
def handleGetAccountById (idVar : Option String) (w : Writer) (db : DB) : HandlerOut :=
  let r := getId idVar w
  handleGetAccountByIdCore r.1 r.2 db

/-- The straight-line tail of handleDeleteAccount once the id is in hand:
delete (always succeeds) and write the deleted-id body with 200. -/
def handleDeleteAccountCore (id : Int) (w : Writer) (db : DB) : HandlerOut :=
  (w ++ [jsonWrite 200 (Json.obj [("deleted", Json.num id)])],
   none, deleteAccount id db)

/-- handleDeleteAccount: extract the id with getId, then delete. getId
failure does not abort the handler; the delete runs with -1. -/
def handleDeleteAccount (idVar : Option String) (w : Writer) (db : DB) : HandlerOut :=
  let r := getId idVar w
  handleDeleteAccountCore r.1 r.2 db

/-- handleTransfer: decode the payload and echo it back with 200; the
transfer logic is a TODO and no storage call is made. -/
def handleTransfer (bd : BodyIn) (w : Writer) (db : DB) : HandlerOut :=
  match decodeTransferRequest bd with
  | Except.error e => (w, some e, db)
  | Except.ok t => (w ++ [jsonWrite 200 (encodeTransferRequest t)], none, db)

/-- handleAccount: the method switch of the collection route. GET lists,
POST creates, DELETE deletes (with no id path variable present), and any
other method returns the Method Is Not Allowed error. -/
def handleAccount (env : Env) (method : String) (bd : BodyIn)
    (w : Writer) (db : DB) : HandlerOut :=
  match method with
  | "GET" => handleGetAccounts w db
  | "POST" => handleCreateAccount env bd w db
  | "DELETE" => handleDeleteAccount none w db
  | m => (w, some ("Method Is Not Allowed: " ++ m), db)

/-! ## Handler wrapper and router (makeHTTPHandlerFunc, Run) -/

/-- WriteError: append the uniform JSON error envelope at the given
status. -/
def WriteError (w : Writer) (status : Nat) (msg : String) : Writer :=
  w ++ [jsonWrite status (Json.obj [("error", Json.str msg)])]

/-- The error-to-response step of makeHTTPHandlerFunc: a returned error
becomes a 400 with the JSON error envelope appended to whatever the
handler already wrote; no error leaves the trace as the handler wrote
it. -/
def applyHandlerResult (out : HandlerOut) : Writer × DB :=
  match out with
  | (w, some e, db) => (WriteError w 400 e, db)
  | (w, none, db) => (w, db)

/-- makeHTTPHandlerFunc: run the wrapped handler and apply the
error-to-response step. -/
def makeHTTPHandlerFunc (f : Writer → DB → HandlerOut)
    (w : Writer) (db : DB) : Writer × DB :=
  applyHandlerResult (f w db)

/-- An HTTP request as the router sees it: method, path segments, and the
body the decoder will read. -/
structure Request where
  method : String
  path : List String
  bodyIn : BodyIn
deriving Repr

/-- The not-found page of the router (http.NotFoundHandler). -/
def notFoundWrite : Write :=
  { status := 404, body := Body.plain "404 page not found\n" }

/-- The mux method-mismatch response: a matching path whose method no
route accepts gets a bare 405. -/
def methodNotAllowedWrite : Write :=
  { status := 405, body := Body.plain "" }

/-- The router of Run: under the /api/v1 prefix, /account (any method)
goes to handleAccount; /account/id with id matching the digit pattern
goes to the get handler on GET and the delete handler on DELETE; /transfer
goes to handleTransfer; everything else is the 404 page. A path segment
that fails the digit pattern matches no route. -/
def serve (env : Env) (req : Request) (db : DB) : Writer × DB :=
  match req.path with
  | ["api", "v1", "account"] =>
      makeHTTPHandlerFunc (handleAccount env req.method req.bodyIn) [] db
  | ["api", "v1", "account", s] =>
      if isDigitString s then
        match req.method with
        | "GET" => makeHTTPHandlerFunc (handleGetAccountById (some s)) [] db
        | "DELETE" => makeHTTPHandlerFunc (handleDeleteAccount (some s)) [] db
        | _ => ([methodNotAllowedWrite], db)
      else ([notFoundWrite], db)
  | ["api", "v1", "transfer"] =>
      makeHTTPHandlerFunc (handleTransfer req.bodyIn) [] db
  | _ => ([notFoundWrite], db)

/-! ## Concrete fixtures for witnesses and counterexamples -/

/-- A fixed environment: generated number 7, in-process clock 3. -/
def env1 : Env := { gen := 7, tnow := 3 }

/-- The empty database: no rows, SERIAL at 1, database clock 5. -/
def dbEmpty : DB := { rows := [], nextId := 1, now := 5 }

/-- A create-account request with names a and b. -/
def createReq : Request :=
  { method := "POST", path := ["api", "v1", "account"],
    bodyIn := BodyIn.json (Json.obj
      [("firstName", Json.str "a"), ("lastName", Json.str "b")]) }

/-- A get request for the literal id a body-less GET carries. -/
def getReq (s : String) : Request :=
  { method := "GET", path := ["api", "v1", "account", s],
    bodyIn := BodyIn.json Json.null }

/-- A delete request for the given id segment. -/
def deleteReq (s : String) : Request :=
  { method := "DELETE", path := ["api", "v1", "account", s],
    bodyIn := BodyIn.json Json.null }

/-- The spec example transfer body: toAccount 2, amount 100. -/
def transferBody : BodyIn :=
  BodyIn.json (Json.obj [("toAccount", Json.num 2), ("amount", Json.num 100)])

/-- A raw row that scans cleanly. -/
def goodRow : Row :=
  [DbVal.int 1, DbVal.text "a", DbVal.text "b", DbVal.int 7, DbVal.int 0, DbVal.time 5]

/-- A raw row the scan rejects: a single column. -/
def badRow : Row := [DbVal.int 2]

/-- All stored balances are zero. -/
def balancesZero (db : DB) : Prop := ∀ a ∈ db.rows, a.balance = 0

/-! ## Helper lemmas -/

/-- The wrapper never changes the database state the handler left. -/
theorem makeHTTPHandlerFunc_db (f : Writer → DB → HandlerOut) (w : Writer) (db : DB) :
    (makeHTTPHandlerFunc f w db).2 = (f w db).2.2 := by
  unfold makeHTTPHandlerFunc applyHandlerResult
  rcases f w db with ⟨w2, e, db2⟩
  cases e <;> rfl

/-- Deleting rows preserves the all-balances-zero invariant. -/
theorem balancesZero_deleteAccount (id : Int) (db : DB) (h : balancesZero db) :
    balancesZero (deleteAccount id db) := by
  intro a ha
  exact h a (List.mem_of_mem_filter ha)

/-- Inserting a zero-balance account preserves the invariant: the stored
row keeps the balance of the inserted value. -/
theorem balancesZero_createAccount (acc : Account) (db : DB)
    (h0 : acc.balance = 0) (h : balancesZero db) :
    balancesZero (createAccount acc db) := by
  intro a ha
  rcases List.mem_append.mp ha with hm | hm
  · exact h a hm
  · rcases List.mem_singleton.mp hm with rfl
    exact h0

/-- The create handler inserts only the zero-balance NewAccount value. -/
theorem handleCreateAccount_balances (env : Env) (bd : BodyIn) (w : Writer) (db : DB)
    (h : balancesZero db) :
    balancesZero (handleCreateAccount env bd w db).2.2 := by
  unfold handleCreateAccount
  split
  · exact h
  · exact balancesZero_createAccount _ db rfl h

/-- The delete handler only removes rows. -/
theorem handleDeleteAccount_balances (idVar : Option String) (w : Writer) (db : DB)
    (h : balancesZero db) :
    balancesZero (handleDeleteAccount idVar w db).2.2 := by
  unfold handleDeleteAccount handleDeleteAccountCore
  dsimp only
  exact balancesZero_deleteAccount _ db h

/-- The get-by-id handler leaves the database untouched. -/
theorem handleGetAccountById_db (idVar : Option String) (w : Writer) (db : DB) :
    (handleGetAccountById idVar w db).2.2 = db := by
  unfold handleGetAccountById handleGetAccountByIdCore
  dsimp only
  split <;> rfl

/-- The transfer handler leaves the database untouched. -/
theorem handleTransfer_db (bd : BodyIn) (w : Writer) (db : DB) :
    (handleTransfer bd w db).2.2 = db := by
  unfold handleTransfer
  split <;> rfl

/-- Every branch of the collection-route method switch preserves the
invariant. -/
theorem handleAccount_balances (env : Env) (m : String) (bd : BodyIn) (w : Writer) (db : DB)
    (h : balancesZero db) :
    balancesZero (handleAccount env m bd w db).2.2 := by
  unfold handleAccount
  split
  · exact h
  · exact handleCreateAccount_balances env bd w db h
  · exact handleDeleteAccount_balances none w db h
  · exact h

/-- When every row scans, the loop returns the accumulated prefix followed
by the decoded rows, with no error. -/
theorem getAccountsLoop_ok (rows : List Row) :
    ∀ (acc accs : List Account), rows.mapM scanIntoAccount = Except.ok accs →
      getAccountsLoop acc rows = (some (acc ++ accs), none) := by
  induction rows with
  | nil =>
    intro acc accs h
    rw [List.mapM_nil] at h
    have h2 : Except.ok ([] : List Account) = Except.ok accs := h
    injection h2 with h3
    subst h3
    simp [getAccountsLoop]
  | cons r rs ih =>
    intro acc accs h
    rw [List.mapM_cons] at h
    cases hr : scanIntoAccount r with
    | error e =>
      rw [hr] at h
      exact Except.noConfusion (show Except.error e = Except.ok accs from h)
    | ok a =>
      rw [hr] at h
      cases hrs : rs.mapM scanIntoAccount with
      | error e =>
        rw [hrs] at h
        exact Except.noConfusion (show Except.error e = Except.ok accs from h)
      | ok as =>
        rw [hrs] at h
        have h2 : Except.ok (a :: as) = Except.ok accs := h
        injection h2 with h3
        subst h3
        simp only [getAccountsLoop, hr]
        rw [ih (acc ++ [a]) as hrs]
        simp

/-- The first failing row aborts the loop with the nil slice and that
error, discarding every account already decoded. -/
theorem getAccountsLoop_error (pre : List Row) :
    ∀ (acc : List Account) (row : Row) (rest : List Row) (e : String),
      (∀ r ∈ pre, ∃ a, scanIntoAccount r = Except.ok a) →
      scanIntoAccount row = Except.error e →
      getAccountsLoop acc (pre ++ row :: rest) = (none, some e) := by
  induction pre with
  | nil =>
    intro acc row rest e _ hrow
    simp only [List.nil_append, getAccountsLoop, hrow]
  | cons p ps ih =>
    intro acc row rest e hpre hrow
    obtain ⟨a, ha⟩ := hpre p (List.mem_cons_self p ps)
    simp only [List.cons_append, getAccountsLoop, ha]
    exact ih (acc ++ [a]) row rest e (fun r hr => hpre r (List.mem_cons_of_mem p hr)) hrow

/-- The stored row the create fixture produces: generated id 1, database
timestamp 5. -/
def acctStored : Account :=
  { id := 1, firstName := "a", lastName := "b", number := 7, balance := 0, createdAt := 5 }

/-! ## Claims -/

/-- C1 counterexample: on the empty database the create-account response
carries the in-memory record with id 0, not the database-generated id 1,
so the returned id is not positive, and a get by the returned id 0 yields
the account 0 not found error envelope rather than an identical record. -/
theorem c1_create_response_lacks_generated_id :
    (serve env1 createReq dbEmpty).1
        = [jsonWrite 201 (encodeAccount (NewAccount "a" "b" 7 3))]
    ∧ (NewAccount "a" "b" 7 3).id = 0
    ∧ ¬ 0 < (NewAccount "a" "b" 7 3).id
    ∧ (serve env1 (getReq "0") (serve env1 createReq dbEmpty).2).1
        = [jsonWrite 400 (Json.obj [("error", Json.str "account 0 not found")])] :=
  ⟨rfl, rfl, by decide, rfl⟩

/-- C1 (amended): a create request whose body decodes stores a row
carrying the generated id and the database timestamp, and responds 201
with the in-memory NewAccount value — zero balance and a set
construction-time timestamp, but id 0 rather than the generated id; the
stored row, retrieved by its generated id, comes back identically. -/
theorem c1_create_stores_row_responds_inMemory
    (env : Env) (db : DB) (fn ln : String)
    (hfresh : ∀ a ∈ db.rows, ¬ a.id = db.nextId) :
    serve env { method := "POST", path := ["api", "v1", "account"], bodyIn := BodyIn.json (Json.obj [("firstName", Json.str fn), ("lastName", Json.str ln)]) } db
      = ([jsonWrite 201 (encodeAccount (NewAccount fn ln env.gen env.tnow))],
         { rows := db.rows ++ [{ NewAccount fn ln env.gen env.tnow with id := db.nextId, createdAt := db.now }], nextId := db.nextId + 1, now := db.now })
    ∧ (NewAccount fn ln env.gen env.tnow).balance = 0
    ∧ (NewAccount fn ln env.gen env.tnow).id = 0
    ∧ getAccountById db.nextId
        { rows := db.rows ++ [{ NewAccount fn ln env.gen env.tnow with id := db.nextId, createdAt := db.now }], nextId := db.nextId + 1, now := db.now }
      = Except.ok { NewAccount fn ln env.gen env.tnow with id := db.nextId, createdAt := db.now } := by
  refine ⟨?_, rfl, rfl, ?_⟩
  · simp [serve, makeHTTPHandlerFunc, handleAccount, handleCreateAccount,
          decodeCreateAccountRequest, getStrField, lookupField, applyHandlerResult,
          createAccount, NewAccount]
  · have hfind : db.rows.find? (fun a => a.id == db.nextId) = none := by
      rw [List.find?_eq_none]
      intro a ha
      simpa using hfresh a ha
    simp [getAccountById, List.find?_append, hfind, NewAccount]

/-- C1 witness: the amended create theorem at the empty database with
names a and b: the response carries the in-memory record and the store
gains the row with generated id 1. -/
theorem c1_create_amended_witness :
    (∀ a ∈ dbEmpty.rows, ¬ a.id = dbEmpty.nextId)
    ∧ serve env1 createReq dbEmpty
        = ([jsonWrite 201 (encodeAccount (NewAccount "a" "b" 7 3))],
           { rows := [acctStored], nextId := 2, now := 5 }) :=
  have hfresh : ∀ a ∈ dbEmpty.rows, ¬ a.id = dbEmpty.nextId := by simp [dbEmpty]
  ⟨hfresh, (c1_create_stores_row_responds_inMemory env1 dbEmpty "a" "b" hfresh).1⟩

/-- C2 counterexample: a GET for the non-numeric id abc never reaches
getId — the digit route pattern rejects it and the router answers with
the plain 404 page, not status 400. -/
theorem c2_nonNumeric_id_gets_404 :
    serve env1 (getReq "abc") dbEmpty = ([notFoundWrite], dbEmpty)
    ∧ notFoundWrite.status = 404
    ∧ ¬ notFoundWrite.status = 400 :=
  ⟨rfl, rfl, by decide⟩

/-- C2 (amended): a non-numeric id matches no route and receives the
plain-text 404 page from the router, for any method; the plain-text 400
of the path-parameter conversion step occurs only for all-digit ids whose
value overflows the 64-bit conversion, where the delete handler then
proceeds with id -1. -/
theorem c2_nonNumeric_404_overflow_400 :
    (∀ (env : Env) (m : String) (bd : BodyIn) (db : DB) (s : String),
        isDigitString s = false →
        serve env { method := m, path := ["api", "v1", "account", s], bodyIn := bd } db
          = ([notFoundWrite], db))
    ∧ (∀ (env : Env) (bd : BodyIn) (db : DB) (s : String),
        isDigitString s = true → atoi s = none →
        serve env { method := "DELETE", path := ["api", "v1", "account", s], bodyIn := bd } db
          = ([invalidIdWrite s, jsonWrite 200 (Json.obj [("deleted", Json.num (-1))])],
             deleteAccount (-1) db)) := by
  constructor
  · intro env m bd db s h
    simp [serve, h]
  · intro env bd db s hdig hatoi
    simp [serve, hdig, makeHTTPHandlerFunc, handleDeleteAccount, getId, hatoi,
          handleDeleteAccountCore, applyHandlerResult]

/-- C2 witness: the amended theorem at the id abc (no digits, 404) and at
a 20-digit id (digits, Atoi overflow, plain 400 then deleted -1). -/
theorem c2_amended_witness :
    (isDigitString "abc" = false
      ∧ serve env1 { method := "GET", path := ["api", "v1", "account", "abc"], bodyIn := BodyIn.json Json.null } dbEmpty
          = ([notFoundWrite], dbEmpty))
    ∧ (isDigitString "99999999999999999999" = true
      ∧ atoi "99999999999999999999" = none
      ∧ serve env1 (deleteReq "99999999999999999999") dbEmpty
          = ([invalidIdWrite "99999999999999999999",
              jsonWrite 200 (Json.obj [("deleted", Json.num (-1))])], dbEmpty)) :=
  ⟨⟨rfl, c2_nonNumeric_404_overflow_400.1 env1 "GET" (BodyIn.json Json.null) dbEmpty "abc" rfl⟩,
   ⟨rfl, rfl,
    c2_nonNumeric_404_overflow_400.2 env1 (BodyIn.json Json.null) dbEmpty
      "99999999999999999999" rfl rfl⟩⟩

/-- C3: for every id value the delete route responds 200 with the
deleted-id body and simply filters the table, whatever the database
contains — in particular identically when no row matches the id. -/
theorem c3_delete_succeeds_without_rowcount_check
    (env : Env) (db : DB) (bd : BodyIn) (s : String) (n : Int)
    (hdig : isDigitString s = true) (hatoi : atoi s = some n) :
    serve env { method := "DELETE", path := ["api", "v1", "account", s], bodyIn := bd } db
      = ([jsonWrite 200 (Json.obj [("deleted", Json.num n)])],
         { db with rows := db.rows.filter (fun a => a.id != n) }) := by
  simp [serve, hdig, makeHTTPHandlerFunc, handleDeleteAccount, getId, hatoi,
        handleDeleteAccountCore, applyHandlerResult, deleteAccount]

/-- C3 witness: deleting id 5 from the empty database — no row matches —
still answers 200 with deleted 5. -/
theorem c3_delete_missing_id_witness :
    isDigitString "5" = true ∧ atoi "5" = some 5
    ∧ serve env1 (deleteReq "5") dbEmpty
        = ([jsonWrite 200 (Json.obj [("deleted", Json.num 5)])], dbEmpty) :=
  ⟨rfl, rfl,
   c3_delete_succeeds_without_rowcount_check env1 dbEmpty (BodyIn.json Json.null) "5" 5 rfl rfl⟩

/-- C4: a GET for a numeric id no stored row carries produces the JSON
error envelope with the message account N not found, rendered with
status 400. -/
theorem c4_get_missing_id_400_with_message
    (env : Env) (db : DB) (bd : BodyIn) (s : String) (n : Int)
    (hdig : isDigitString s = true) (hatoi : atoi s = some n)
    (habs : ∀ a ∈ db.rows, ¬ a.id = n) :
    serve env { method := "GET", path := ["api", "v1", "account", s], bodyIn := bd } db
      = ([jsonWrite 400 (Json.obj [("error",
            Json.str ("account " ++ toString n ++ " not found"))])], db) := by
  have hfind : db.rows.find? (fun a => a.id == n) = none := by
    rw [List.find?_eq_none]
    intro a ha
    simpa using habs a ha
  simp [serve, hdig, makeHTTPHandlerFunc, handleGetAccountById, getId, hatoi,
        handleGetAccountByIdCore, getAccountById, hfind, applyHandlerResult, WriteError]

/-- C4 witness: getting id 5 from the empty database yields the 400
envelope with the message account 5 not found. -/
theorem c4_get_missing_id_witness :
    (∀ a ∈ dbEmpty.rows, ¬ a.id = (5 : Int))
    ∧ serve env1 (getReq "5") dbEmpty
        = ([jsonWrite 400 (Json.obj [("error", Json.str "account 5 not found")])], dbEmpty) :=
  have habs : ∀ a ∈ dbEmpty.rows, ¬ a.id = (5 : Int) := by simp [dbEmpty]
  ⟨habs, c4_get_missing_id_400_with_message env1 dbEmpty (BodyIn.json Json.null) "5" 5 rfl rfl habs⟩

/-- C5: a transfer request whose body decodes is echoed back as the
decoded payload with status 200, and the database — every stored account
and balance — is returned unchanged; no storage operation runs. -/
theorem c5_transfer_echoes_without_side_effects
    (env : Env) (db : DB) (bd : BodyIn) (t : TransferRequest)
    (hdec : decodeTransferRequest bd = Except.ok t) :
    serve env { method := "POST", path := ["api", "v1", "transfer"], bodyIn := bd } db
      = ([jsonWrite 200 (encodeTransferRequest t)], db) := by
  simp [serve, makeHTTPHandlerFunc, handleTransfer, hdec, applyHandlerResult]

/-- C5 witness: the spec example payload toAccount 2, amount 100 decodes
with the zero fromAccount and is echoed with 200, the database
untouched. -/
theorem c5_transfer_witness :
    decodeTransferRequest transferBody
        = Except.ok { fromAccount := 0, toAccount := 2, amount := 100 }
    ∧ serve env1 { method := "POST", path := ["api", "v1", "transfer"], bodyIn := transferBody } dbEmpty
        = ([jsonWrite 200 (encodeTransferRequest { fromAccount := 0, toAccount := 2, amount := 100 })], dbEmpty) :=
  ⟨rfl, c5_transfer_echoes_without_side_effects env1 dbEmpty transferBody
          { fromAccount := 0, toAccount := 2, amount := 100 } rfl⟩

/-- C6: whatever handler the wrapper runs and whatever error it returns —
decode failure, storage error, unsupported method — the wrapper appends
exactly one write: status 400 with the JSON envelope carrying the message
as-is, and keeps the database the handler left. -/
theorem c6_handler_errors_render_400_envelope
    (f : Writer → DB → HandlerOut) (w : Writer) (db : DB) (e : String)
    (herr : (f w db).2.1 = some e) :
    makeHTTPHandlerFunc f w db
      = ((f w db).1 ++ [jsonWrite 400 (Json.obj [("error", Json.str e)])],
         (f w db).2.2) := by
  unfold makeHTTPHandlerFunc applyHandlerResult WriteError
  rcases hf : f w db with ⟨w2, e2, db2⟩
  rw [hf] at herr
  simp at herr
  subst herr
  rfl

/-- C6 witness: the collection handler on method PATCH returns the
unsupported-method error, and the wrapper renders it as the single 400
envelope write. -/
theorem c6_envelope_witness :
    (handleAccount env1 "PATCH" (BodyIn.json Json.null) [] dbEmpty).2.1
        = some "Method Is Not Allowed: PATCH"
    ∧ makeHTTPHandlerFunc (handleAccount env1 "PATCH" (BodyIn.json Json.null)) [] dbEmpty
        = ([jsonWrite 400 (Json.obj [("error", Json.str "Method Is Not Allowed: PATCH")])],
           dbEmpty) :=
  ⟨rfl, c6_handler_errors_render_400_envelope
          (handleAccount env1 "PATCH" (BodyIn.json Json.null)) [] dbEmpty
          "Method Is Not Allowed: PATCH" rfl⟩

/-- C7 counterexample: DELETE on the collection route is not answered
with the unsupported-method error — the method switch dispatches it to
the delete handler, which fails id extraction with a plain 400 and then
still writes 200 with deleted -1. -/
theorem c7_collection_delete_not_method_error :
    serve env1 { method := "DELETE", path := ["api", "v1", "account"], bodyIn := BodyIn.json Json.null } dbEmpty
      = ([invalidIdWrite "", jsonWrite 200 (Json.obj [("deleted", Json.num (-1))])], dbEmpty)
    ∧ (serve env1 { method := "DELETE", path := ["api", "v1", "account"], bodyIn := BodyIn.json Json.null } dbEmpty).1.map Write.status
        = [400, 200]
    ∧ ¬ (serve env1 { method := "DELETE", path := ["api", "v1", "account"], bodyIn := BodyIn.json Json.null } dbEmpty).1.map Write.status
        = [400] :=
  ⟨rfl, rfl, by decide⟩

/-- C7 (amended): on the collection route every method outside the
switch — GET, POST and also DELETE — is answered with the
Method Is Not Allowed error rendered as the single 400 envelope write;
DELETE itself is dispatched to the delete handler. -/
theorem c7_unsupported_collection_method_400
    (env : Env) (bd : BodyIn) (db : DB) (m : String)
    (h1 : m ≠ "GET") (h2 : m ≠ "POST") (h3 : m ≠ "DELETE") :
    serve env { method := m, path := ["api", "v1", "account"], bodyIn := bd } db
      = ([jsonWrite 400 (Json.obj
           [("error", Json.str ("Method Is Not Allowed: " ++ m))])], db) := by
  have hacc : handleAccount env m bd [] db
      = ([], some ("Method Is Not Allowed: " ++ m), db) := by
    unfold handleAccount
    split
    · exact absurd rfl h1
    · exact absurd rfl h2
    · exact absurd rfl h3
    · rfl
  simp [serve, makeHTTPHandlerFunc, hacc, applyHandlerResult, WriteError]

/-- C7 witness: method PUT on the collection route gets the 400 envelope
with the Method Is Not Allowed message. -/
theorem c7_put_witness :
    ("PUT" ≠ "GET" ∧ "PUT" ≠ "POST" ∧ "PUT" ≠ "DELETE")
    ∧ serve env1 { method := "PUT", path := ["api", "v1", "account"], bodyIn := BodyIn.json Json.null } dbEmpty
        = ([jsonWrite 400 (Json.obj [("error", Json.str "Method Is Not Allowed: PUT")])],
           dbEmpty) :=
  ⟨⟨by decide, by decide, by decide⟩,
   c7_unsupported_collection_method_400 env1 (BodyIn.json Json.null) dbEmpty "PUT"
     (by decide) (by decide) (by decide)⟩

/-- C8: if every stored balance is zero, it stays zero across any routed
request — create inserts only the zero-balance NewAccount value, delete
only removes rows, nothing else writes — and UpdateAccount succeeds while
mutating nothing. -/
theorem c8_balances_never_mutated
    (env : Env) (req : Request) (db : DB) (acc : Account)
    (h : balancesZero db) :
    balancesZero (serve env req db).2 ∧ updateAccount acc db = Except.ok db := by
  refine ⟨?_, rfl⟩
  unfold serve
  split
  · rw [makeHTTPHandlerFunc_db]
    exact handleAccount_balances env req.method req.bodyIn [] db h
  · split
    · split
      · rw [makeHTTPHandlerFunc_db, handleGetAccountById_db]
        exact h
      · rw [makeHTTPHandlerFunc_db]
        exact handleDeleteAccount_balances _ [] db h
      · exact h
    · exact h
  · rw [makeHTTPHandlerFunc_db, handleTransfer_db]
    exact h
  · exact h

/-- C8 witness: the invariant at the empty database across a create
request, and the no-op update. -/
theorem c8_invariant_witness :
    balancesZero dbEmpty
    ∧ balancesZero (serve env1 createReq dbEmpty).2
    ∧ updateAccount acctStored dbEmpty = Except.ok dbEmpty :=
  have h : balancesZero dbEmpty := by simp [balancesZero, dbEmpty]
  ⟨h, (c8_balances_never_mutated env1 createReq dbEmpty acctStored h).1,
   (c8_balances_never_mutated env1 createReq dbEmpty acctStored h).2⟩

/-- C9: when Atoi rejects the id variable, getId returns -1 after the
plain-text 400 and neither caller aborts: the delete handler still
deletes id -1 and appends the 200 deleted -1 body after the error write,
and the get handler proceeds into the lookup with id -1. -/
theorem c9_getId_failure_handlers_proceed
    (idVar : Option String) (w : Writer) (db : DB)
    (h : atoi (idVar.getD "") = none) :
    handleDeleteAccount idVar w db
        = ((w ++ [invalidIdWrite (idVar.getD "")])
            ++ [jsonWrite 200 (Json.obj [("deleted", Json.num (-1))])],
           none, deleteAccount (-1) db)
    ∧ handleGetAccountById idVar w db
        = handleGetAccountByIdCore (-1) (w ++ [invalidIdWrite (idVar.getD "")]) db := by
  constructor
  · simp [handleDeleteAccount, getId, h, handleDeleteAccountCore]
  · simp [handleGetAccountById, getId, h]

/-- C9 witness: the id variable abc fails Atoi; the delete handler writes
the plain 400 and then 200 with deleted -1, and the get handler runs the
lookup with -1. -/
theorem c9_invalid_id_witness :
    atoi ((some "abc").getD "") = none
    ∧ handleDeleteAccount (some "abc") [] dbEmpty
        = ([invalidIdWrite "abc", jsonWrite 200 (Json.obj [("deleted", Json.num (-1))])],
           none, dbEmpty)
    ∧ handleGetAccountById (some "abc") [] dbEmpty
        = handleGetAccountByIdCore (-1) [invalidIdWrite "abc"] dbEmpty :=
  ⟨rfl,
   (c9_getId_failure_handlers_proceed (some "abc") [] dbEmpty rfl).1,
   (c9_getId_failure_handlers_proceed (some "abc") [] dbEmpty rfl).2⟩

/-- C10: the row loop of GetAccounts returns either every decoded row
with no error, or the nil slice with the error of the first failing
row — never a partial result; on no rows it returns the non-nil empty
slice, and the list handler therefore writes a JSON array. -/
theorem c10_getAccounts_all_or_first_error :
    (∀ (rows : List Row) (accs : List Account),
        rows.mapM scanIntoAccount = Except.ok accs →
        getAccountsRows rows = (some accs, none))
    ∧ (∀ (pre : List Row) (row : Row) (rest : List Row) (e : String),
        (∀ r ∈ pre, ∃ a, scanIntoAccount r = Except.ok a) →
        scanIntoAccount row = Except.error e →
        getAccountsRows (pre ++ row :: rest) = (none, some e))
    ∧ getAccountsRows [] = (some [], none)
    ∧ encodeAccountSlice (some []) = Json.arr []
    ∧ (∀ (w : Writer) (db : DB),
        handleGetAccounts w db
          = (w ++ [jsonWrite 200 (Json.arr (db.rows.map encodeAccount))], none, db)) := by
  refine ⟨?_, ?_, rfl, rfl, ?_⟩
  · intro rows accs h
    simpa [getAccountsRows] using getAccountsLoop_ok rows [] accs h
  · intro pre row rest e hpre hrow
    exact getAccountsLoop_error pre [] row rest e hpre hrow
  · intro w db
    rfl

/-- C10 witness: one clean row decodes in full; a clean row followed by a
malformed one yields the nil slice with the scan error and no partial
list. -/
theorem c10_scan_witness :
    [goodRow].mapM scanIntoAccount = Except.ok [acctStored]
    ∧ getAccountsRows [goodRow] = (some [acctStored], none)
    ∧ scanIntoAccount badRow = Except.error "sql: Scan error on row"
    ∧ getAccountsRows [goodRow, badRow] = (none, some "sql: Scan error on row") :=
  ⟨rfl,
   c10_getAccounts_all_or_first_error.1 [goodRow] [acctStored] rfl,
   rfl,
   c10_getAccounts_all_or_first_error.2.1 [goodRow] badRow [] "sql: Scan error on row"
     (fun r hr => by rcases List.mem_singleton.mp hr with rfl; exact ⟨acctStored, rfl⟩)
     rfl⟩

end Gobank
